import Mathlib

/-!
Verification of the OTLP gRPC trace exporter (`otlp_grpc_exporter.cc`).

The exporter is embedded shallowly: the fields of `OtlpGrpcExporter` mirror
the C++ members, each public method is a pure function returning its result
together with a trace of observable events (RPC attempts, reference-guard
calls on the shared client, structured log entries).  `OtlpGrpcClient` is not
part of the examined source; the behaviour the exporter observes from it is
modelled from the spec as environment fields (what the delegated calls
report back).
-/

namespace Otlp

/-- Export outcome of `sdk::common::ExportResult`: a batch either fully
succeeds or is reported as failed. -/
inductive ExportResult where
| kSuccess : ExportResult
| kFailure : ExportResult
deriving DecidableEq, Repr

/-- A gRPC status as observed by the exporter: ok flag, error code and
error message. -/
structure GrpcStatus where
  ok : Bool
  error_code : Nat
  error_message : String
deriving DecidableEq, Repr

/-- The trace-service RPC stub, abstracted to the status its blocking
`Export` RPC returns (a present-but-broken stub is one whose status is
non-OK). -/
structure TraceServiceStub where
  status : GrpcStatus
deriving DecidableEq, Repr

/-- Modelled from the spec: `OtlpGrpcClient` (the Shared Client) is not in
the examined source; the exporter only observes the results of the calls it
delegates to the client.  Those results are modelled as environment fields:
the outcome `DelegateAsyncExport` reports on admission, whether `ForceFlush`
drains within its timeout, whether `Shutdown`'s drain/teardown completes
within its timeout, and the stub `MakeTraceServiceStub` constructs. -/
structure OtlpGrpcClient where
  asyncExportResult : ExportResult
  flushResult : Bool
  shutdownResult : Bool
  stubFromFactory : Option TraceServiceStub
deriving DecidableEq, Repr

/-- Configuration snapshot copied into each exporter at construction.  Only
`max_concurrent_requests` is read by the export/lifecycle logic. -/
structure OtlpGrpcExporterOptions where
  endpoint : String
  timeout : Nat
  max_concurrent_requests : Nat
deriving DecidableEq, Repr

/-- Modelled from the spec: the default-constructed
`OtlpGrpcExporterOptions` value (the concrete defaults live outside the
examined source; the claims only need it to be one fixed value). -/
def OtlpGrpcExporterOptions.default : OtlpGrpcExporterOptions :=
  ⟨"localhost:4317", 10000000, 64⟩

/-- Observable events emitted by exporter operations: reference-guard calls
on the shared client, RPC attempts, and structured log entries. -/
inductive Event where
| addReference (guard : Nat)
| removeReference (guard : Nat)
| clientShutdownRef (guard : Nat)
| rpcSync
| rpcAsync
| clientFlush
| logShutdownError (nspans : Nat)
| logNoStubError (nspans : Nat)
| logStatusError (code : Nat) (msg : String)
| logSuccess (resourceSpans : Nat)
deriving DecidableEq, Repr

/-- An event is an RPC attempt at the transport. -/
def Event.isRpc : Event → Bool
| rpcSync => true
| rpcAsync => true
| _ => false

/-- An event registers a reference guard with the shared client. -/
def Event.isAddRef : Event → Bool
| addReference _ => true
| _ => false

/-- An event removes a reference for a guard from the shared client, either
via the non-blocking `RemoveReference` or via the blocking
`Shutdown(guard, timeout)`. -/
def Event.isRemoveRef : Event → Bool
| removeReference _ => true
| clientShutdownRef _ => true
| _ => false

/-- Number of RPC attempts in an event trace. -/
def rpcCount (evs : List Event) : Nat := (evs.filter Event.isRpc).length

/-- Number of guard registrations in an event trace. -/
def refAddedCount (evs : List Event) : Nat := (evs.filter Event.isAddRef).length

/-- Number of guard removals in an event trace. -/
def refRemovedCount (evs : List Event) : Nat := (evs.filter Event.isRemoveRef).length

/-- The exporter state: the C++ members of `OtlpGrpcExporter`.  Spans are
modelled by the resource key each span belongs to (field-level conversion is
out of scope). -/
structure OtlpGrpcExporter where
  options_ : OtlpGrpcExporterOptions
  client_ : Option OtlpGrpcClient
  client_reference_guard_ : Nat
  trace_service_stub_ : Option TraceServiceStub
  is_shutdown_ : Bool
deriving DecidableEq, Repr

/-- Constructor taking options: creates the client via the factory (the
created client is a parameter here), creates the reference guard, registers
it with `AddReference`, and obtains the stub from `MakeTraceServiceStub`. -/
def OtlpGrpcExporter.mkWithOptions (options : OtlpGrpcExporterOptions)
    (client : OtlpGrpcClient) (guard : Nat) : OtlpGrpcExporter × List Event :=
  (⟨options, some client, guard, client.stubFromFactory, false⟩,
   [Event.addReference guard])

/-- The zero-argument constructor: delegates to the options constructor with
a default-constructed options value. -/
def OtlpGrpcExporter.mkDefault (client : OtlpGrpcClient) (guard : Nat) :
    OtlpGrpcExporter × List Event :=
  OtlpGrpcExporter.mkWithOptions OtlpGrpcExporterOptions.default client guard

/-- Constructor taking a stub: default options, factory-created client,
guard registered with `AddReference`; the supplied stub is used directly. -/
def OtlpGrpcExporter.mkWithStub (stub : Option TraceServiceStub)
    (client : OtlpGrpcClient) (guard : Nat) : OtlpGrpcExporter × List Event :=
  (⟨OtlpGrpcExporterOptions.default, some client, guard, stub, false⟩,
   [Event.addReference guard])

/-- Constructor taking options and an externally supplied client: guard
registered with `AddReference`, stub from `MakeTraceServiceStub`. -/
def OtlpGrpcExporter.mkWithOptionsAndClient (options : OtlpGrpcExporterOptions)
    (client : OtlpGrpcClient) (guard : Nat) : OtlpGrpcExporter × List Event :=
  (⟨options, some client, guard, client.stubFromFactory, false⟩,
   [Event.addReference guard])

/-- Constructor taking a stub and an externally supplied client: default
options, guard registered with `AddReference`. -/
def OtlpGrpcExporter.mkWithStubAndClient (stub : Option TraceServiceStub)
    (client : OtlpGrpcClient) (guard : Nat) : OtlpGrpcExporter × List Event :=
  (⟨OtlpGrpcExporterOptions.default, some client, guard, stub, false⟩,
   [Event.addReference guard])

/-- The destructor: if a client handle is still held, release the reference
via the guard with the non-blocking `RemoveReference`. -/
def OtlpGrpcExporter.destruct (e : OtlpGrpcExporter) : List Event :=
  match e.client_ with
  | some _ => [Event.removeReference e.client_reference_guard_]
  | none => []

/-- `isShutdown()` reads the atomic shutdown flag. -/
def OtlpGrpcExporter.isShutdown (e : OtlpGrpcExporter) : Bool := e.is_shutdown_

/-- Modelled from the spec: `OtlpRecordableUtils::PopulateRequest` groups
spans by resource; `resource_spans_size` is the number of distinct resource
keys in the batch. -/
def resource_spans_size (spans : List Nat) : Nat := spans.dedup.length

/-- The synchronous dispatch: one blocking `DelegateExport` RPC; a non-OK
status is logged with its code and message and mapped to `kFailure`, an OK
status is logged with the resource-span-group count and mapped to
`kSuccess`. -/
def syncExport (stub : TraceServiceStub) (spans : List Nat) :
    ExportResult × List Event :=
  if stub.status.ok then
    (ExportResult.kSuccess,
     [Event.rpcSync, Event.logSuccess (resource_spans_size spans)])
  else
    (ExportResult.kFailure,
     [Event.rpcSync,
      Event.logStatusError stub.status.error_code stub.status.error_message])

/-- The dispatch taken once all guards have passed: the asynchronous path
(`DelegateAsyncExport` on the local client handle) exactly when asynchronous
export is compiled in and `max_concurrent_requests` exceeds one, the
synchronous path otherwise. -/
def exportCore (asyncEnabled : Bool) (options : OtlpGrpcExporterOptions)
    (stub : TraceServiceStub) (client : OtlpGrpcClient) (spans : List Nat) :
    ExportResult × List Event :=
  if asyncEnabled ∧ 1 < options.max_concurrent_requests then
    (client.asyncExportResult, [Event.rpcAsync])
  else
    syncExport stub spans

/-- `Export(spans)`: copies the client handle into a local strong reference,
then checks the guards in order — shutdown signalled or client gone
(Failure), stub unavailable (Failure), empty batch (Success) — and only then
builds the request and dispatches.  `asyncEnabled` is the compile-time
`ENABLE_ASYNC_EXPORT` flag. -/
def OtlpGrpcExporter.Export (asyncEnabled : Bool) (e : OtlpGrpcExporter)
    (spans : List Nat) : ExportResult × List Event :=
  match e.client_ with
  | none => (ExportResult.kFailure, [Event.logShutdownError spans.length])
  | some client =>
    if e.isShutdown then
      (ExportResult.kFailure, [Event.logShutdownError spans.length])
    else
      match e.trace_service_stub_ with
      | none => (ExportResult.kFailure, [Event.logNoStubError spans.length])
      | some stub =>
        if spans.isEmpty then
          (ExportResult.kSuccess, [])
        else
          exportCore asyncEnabled e.options_ stub client spans

/-- `ForceFlush(timeout)`: takes a local strong handle to the client; if no
client remains, returns true immediately; otherwise delegates the bounded
wait to the client and returns its result. -/
def OtlpGrpcExporter.ForceFlush (e : OtlpGrpcExporter) (_timeout : Nat) :
    Bool × List Event :=
  match e.client_ with
  | none => (true, [])
  | some client => (client.flushResult, [Event.clientFlush])

/-- `Shutdown(timeout)`: sets the shutdown flag first, then swaps the client
handle out (clearing the member); if no client was held, returns true;
otherwise delegates to the client's `Shutdown` for this exporter's guard and
returns its drain result. -/
def OtlpGrpcExporter.Shutdown (e : OtlpGrpcExporter) (_timeout : Nat) :
    Bool × OtlpGrpcExporter × List Event :=
  let e1 : OtlpGrpcExporter := { e with is_shutdown_ := true }
  match e1.client_ with
  | none => (true, e1, [])
  | some client =>
    (client.shutdownResult, { e1 with client_ := none },
     [Event.clientShutdownRef e1.client_reference_guard_])

/-- One cross-thread interleaving of `Export` with a concurrent `Shutdown`:
the exporting thread copies the client handle into its local strong
reference and passes every guard; then `Shutdown` runs to completion on the
exporter; then the exporting thread performs the dispatch, reading
`options_` and `trace_service_stub_` from the post-shutdown exporter but
using its captured local client reference. -/
def exportConcurrentShutdown (asyncEnabled : Bool) (timeout : Nat)
    (e : OtlpGrpcExporter) (spans : List Nat) : ExportResult × List Event :=
  match e.client_ with
  | none => (ExportResult.kFailure, [Event.logShutdownError spans.length])
  | some client =>
    if e.isShutdown then
      (ExportResult.kFailure, [Event.logShutdownError spans.length])
    else
      match e.trace_service_stub_ with
      | none => (ExportResult.kFailure, [Event.logNoStubError spans.length])
      | some _ =>
        if spans.isEmpty then
          (ExportResult.kSuccess, [])
        else
          let e2 := (e.Shutdown timeout).2.1
          match e2.trace_service_stub_ with
          | none => (ExportResult.kFailure, [Event.logNoStubError spans.length])
          | some stub => exportCore asyncEnabled e2.options_ stub client spans

/-- A client-facing operation issued on a live exporter. -/
inductive Op where
| exportOp (spans : List Nat)
| forceFlushOp (timeout : Nat)
| shutdownOp (timeout : Nat)
deriving DecidableEq, Repr

/-- Apply one operation to an exporter, yielding the next exporter state and
the events the operation emitted. -/
def applyOp (asyncEnabled : Bool) (e : OtlpGrpcExporter) :
    Op → OtlpGrpcExporter × List Event
| Op.exportOp spans => (e, (OtlpGrpcExporter.Export asyncEnabled e spans).2)
| Op.forceFlushOp t => (e, (e.ForceFlush t).2)
| Op.shutdownOp t => ((e.Shutdown t).2.1, (e.Shutdown t).2.2)

/-- Run a sequence of operations on an exporter, concatenating the emitted
events. -/
def runOps (asyncEnabled : Bool) :
    OtlpGrpcExporter → List Op → OtlpGrpcExporter × List Event
| e, [] => (e, [])
| e, op :: rest =>
  let step := applyOp asyncEnabled e op
  let tail := runOps asyncEnabled step.1 rest
  (tail.1, step.2 ++ tail.2)

/-- A sample shared-client environment used for concrete evaluations. -/
def sampleClient : OtlpGrpcClient :=
  ⟨ExportResult.kSuccess, true, true, none⟩

/-- The full event trace of one exporter lifetime: construction with
options, an arbitrary sequence of operations, then destruction. -/
def lifecycleEvents (asyncEnabled : Bool) (options : OtlpGrpcExporterOptions)
    (client : OtlpGrpcClient) (guard : Nat) (ops : List Op) : List Event :=
  let ctor := OtlpGrpcExporter.mkWithOptions options client guard
  let run := runOps asyncEnabled ctor.1 ops
  ctor.2 ++ run.2 ++ run.1.destruct

end Otlp

namespace Otlp

/-- C1: after `Shutdown(timeout)` returns on an exporter, the shutdown flag
is set and the client handle is cleared, so every subsequent `Export` call
returns Failure with only the post-shutdown error log, attempting no RPC. -/
theorem C1_post_shutdown_export_fails (e : OtlpGrpcExporter) (t : Nat)
    (asyncEnabled : Bool) (spans : List Nat) :
    ((e.Shutdown t).2.1).Export asyncEnabled spans
      = (ExportResult.kFailure, [Event.logShutdownError spans.length])
    ∧ rpcCount (((e.Shutdown t).2.1).Export asyncEnabled spans).2 = 0
    ∧ (e.Shutdown t).2.1.is_shutdown_ = true
    ∧ (e.Shutdown t).2.1.client_ = none := by
  cases hc : e.client_ <;>
    simp [OtlpGrpcExporter.Shutdown, OtlpGrpcExporter.Export, hc, rpcCount,
      Event.isRpc]

/-- C2: the guards of `Export` fire in order, each returning without an
RPC: a signalled shutdown flag or a missing client handle gives Failure
(whatever the stub or the batch), then a missing stub gives Failure
(whatever the batch), then an empty batch gives Success. -/
theorem C2_export_guard_order (asyncEnabled : Bool)
    (opts : OtlpGrpcExporterOptions) (copt : Option OtlpGrpcClient)
    (c : OtlpGrpcClient) (guard : Nat) (stubOpt : Option TraceServiceStub)
    (stub : TraceServiceStub) (b : Bool) (spans : List Nat) :
    (OtlpGrpcExporter.Export asyncEnabled ⟨opts, copt, guard, stubOpt, true⟩ spans
      = (ExportResult.kFailure, [Event.logShutdownError spans.length]))
    ∧ (OtlpGrpcExporter.Export asyncEnabled ⟨opts, none, guard, stubOpt, b⟩ spans
      = (ExportResult.kFailure, [Event.logShutdownError spans.length]))
    ∧ (OtlpGrpcExporter.Export asyncEnabled ⟨opts, some c, guard, none, false⟩ spans
      = (ExportResult.kFailure, [Event.logNoStubError spans.length]))
    ∧ (OtlpGrpcExporter.Export asyncEnabled ⟨opts, some c, guard, some stub, false⟩ []
      = (ExportResult.kSuccess, []))
    ∧ rpcCount [Event.logShutdownError spans.length] = 0
    ∧ rpcCount [Event.logNoStubError spans.length] = 0 := by
  cases copt <;>
    simp [OtlpGrpcExporter.Export, OtlpGrpcExporter.isShutdown, rpcCount,
      Event.isRpc]

end Otlp

namespace Otlp

/-- C3 counterexample: an exporter whose RPC stub is missing (not shut down,
client held) returns Failure on `Export([])`, not Success — the stub guard
fires before the empty-batch fast path. -/
theorem C3_empty_export_missing_stub_fails :
    (OtlpGrpcExporter.Export false
      ⟨OtlpGrpcExporterOptions.default, some sampleClient, 0, none, false⟩
      []).1 ≠ ExportResult.kSuccess := by
  decide

/-- C3 (amended): for every exporter that is not shut down, still holds its
client, and has an RPC stub present — even a broken stub whose RPCs would
fail — `Export([])` returns Success and performs no RPC; when the stub is
missing, `Export([])` instead returns Failure without an RPC. -/
theorem C3_empty_export_success (asyncEnabled : Bool)
    (opts : OtlpGrpcExporterOptions) (c : OtlpGrpcClient) (guard : Nat)
    (stub : TraceServiceStub) :
    (OtlpGrpcExporter.Export asyncEnabled ⟨opts, some c, guard, some stub, false⟩ []
      = (ExportResult.kSuccess, []))
    ∧ rpcCount (OtlpGrpcExporter.Export asyncEnabled
        ⟨opts, some c, guard, some stub, false⟩ []).2 = 0
    ∧ (OtlpGrpcExporter.Export asyncEnabled ⟨opts, some c, guard, none, false⟩ []
      = (ExportResult.kFailure, [Event.logNoStubError 0]))
    ∧ rpcCount (OtlpGrpcExporter.Export asyncEnabled
        ⟨opts, some c, guard, none, false⟩ []).2 = 0 := by
  simp [OtlpGrpcExporter.Export, OtlpGrpcExporter.isShutdown, rpcCount,
    Event.isRpc]

/-- C6: for a non-empty batch that passes every guard, `Export` dispatches
through the asynchronous path exactly when asynchronous export is enabled
and `max_concurrent_requests` exceeds one, and through the synchronous path
otherwise: the trace holds one async RPC and no sync RPC in the first case,
no async RPC and one sync RPC in the second. -/
theorem C6_dispatch_selection (asyncEnabled : Bool)
    (opts : OtlpGrpcExporterOptions) (c : OtlpGrpcClient) (guard : Nat)
    (stub : TraceServiceStub) (s : Nat) (rest : List Nat) :
    ((OtlpGrpcExporter.Export asyncEnabled
        ⟨opts, some c, guard, some stub, false⟩ (s :: rest)).2.count Event.rpcAsync,
     (OtlpGrpcExporter.Export asyncEnabled
        ⟨opts, some c, guard, some stub, false⟩ (s :: rest)).2.count Event.rpcSync)
    = if asyncEnabled ∧ 1 < opts.max_concurrent_requests then (1, 0) else (0, 1) := by
  by_cases h : asyncEnabled ∧ 1 < opts.max_concurrent_requests
  · simp [OtlpGrpcExporter.Export, OtlpGrpcExporter.isShutdown, exportCore, h]
  · rcases hok : stub.status.ok <;>
      simp [OtlpGrpcExporter.Export, OtlpGrpcExporter.isShutdown, exportCore,
        syncExport, h, hok]

end Otlp

namespace Otlp

/-- C7: on the synchronous path (`max_concurrent_requests` at the boundary
value 1, or asynchronous export not compiled in), a guard-passing non-empty
batch issues exactly one RPC; `Export` returns Failure with the status code
and message logged exactly when the delegated status is non-OK, and Success
with the resource-span-group count logged when it is OK.  The result code is
the sole failure channel and no retry occurs (one RPC in every case). -/
theorem C7_sync_path_status_mapping (asyncEnabled : Bool) (ep : String)
    (tmo : Nat) (opts : OtlpGrpcExporterOptions) (c : OtlpGrpcClient)
    (guard : Nat) (stub : TraceServiceStub) (s : Nat) (rest : List Nat) :
    (OtlpGrpcExporter.Export asyncEnabled
        ⟨⟨ep, tmo, 1⟩, some c, guard, some stub, false⟩ (s :: rest)
      = if stub.status.ok then
          (ExportResult.kSuccess,
           [Event.rpcSync, Event.logSuccess (resource_spans_size (s :: rest))])
        else
          (ExportResult.kFailure,
           [Event.rpcSync, Event.logStatusError stub.status.error_code
             stub.status.error_message]))
    ∧ rpcCount (OtlpGrpcExporter.Export asyncEnabled
        ⟨⟨ep, tmo, 1⟩, some c, guard, some stub, false⟩ (s :: rest)).2 = 1
    ∧ (OtlpGrpcExporter.Export false
        ⟨opts, some c, guard, some stub, false⟩ (s :: rest)
      = if stub.status.ok then
          (ExportResult.kSuccess,
           [Event.rpcSync, Event.logSuccess (resource_spans_size (s :: rest))])
        else
          (ExportResult.kFailure,
           [Event.rpcSync, Event.logStatusError stub.status.error_code
             stub.status.error_message]))
    ∧ rpcCount (OtlpGrpcExporter.Export false
        ⟨opts, some c, guard, some stub, false⟩ (s :: rest)).2 = 1 := by
  rcases hok : stub.status.ok <;>
    simp [OtlpGrpcExporter.Export, OtlpGrpcExporter.isShutdown, exportCore,
      syncExport, hok, rpcCount, Event.isRpc]

/-- C8: `ForceFlush(timeout)` returns true immediately with no client call
when no client handle remains (in particular on any exporter on which
`Shutdown` has returned), and otherwise delegates the bounded wait to the
shared client and returns that result. -/
theorem C8_force_flush_delegation (opts : OtlpGrpcExporterOptions)
    (guard : Nat) (stubOpt : Option TraceServiceStub) (b : Bool)
    (c : OtlpGrpcClient) (e : OtlpGrpcExporter) (t t1 t2 : Nat) :
    (OtlpGrpcExporter.ForceFlush ⟨opts, none, guard, stubOpt, b⟩ t = (true, []))
    ∧ (OtlpGrpcExporter.ForceFlush ⟨opts, some c, guard, stubOpt, b⟩ t
      = (c.flushResult, [Event.clientFlush]))
    ∧ ((e.Shutdown t1).2.1.ForceFlush t2 = (true, [])) := by
  refine ⟨rfl, rfl, ?_⟩
  cases hc : e.client_ <;>
    simp [OtlpGrpcExporter.Shutdown, OtlpGrpcExporter.ForceFlush, hc]

/-- C10: the zero-argument constructor delegates to the options constructor
applied to a default-constructed options value, so the two exporters are one
and the same state and every subsequent operation — any export, flush,
shutdown, any whole operation sequence, and destruction — is observationally
identical on them. -/
theorem C10_default_constructor_equivalence (c : OtlpGrpcClient) (guard : Nat)
    (asyncEnabled : Bool) (spans : List Nat) (t : Nat) (ops : List Op) :
    (OtlpGrpcExporter.mkDefault c guard
      = OtlpGrpcExporter.mkWithOptions OtlpGrpcExporterOptions.default c guard)
    ∧ (OtlpGrpcExporter.Export asyncEnabled (OtlpGrpcExporter.mkDefault c guard).1 spans
      = OtlpGrpcExporter.Export asyncEnabled
          (OtlpGrpcExporter.mkWithOptions OtlpGrpcExporterOptions.default c guard).1 spans)
    ∧ ((OtlpGrpcExporter.mkDefault c guard).1.ForceFlush t
      = (OtlpGrpcExporter.mkWithOptions OtlpGrpcExporterOptions.default c guard).1.ForceFlush t)
    ∧ ((OtlpGrpcExporter.mkDefault c guard).1.Shutdown t
      = (OtlpGrpcExporter.mkWithOptions OtlpGrpcExporterOptions.default c guard).1.Shutdown t)
    ∧ (runOps asyncEnabled (OtlpGrpcExporter.mkDefault c guard).1 ops
      = runOps asyncEnabled
          (OtlpGrpcExporter.mkWithOptions OtlpGrpcExporterOptions.default c guard).1 ops)
    ∧ ((OtlpGrpcExporter.mkDefault c guard).1.destruct
      = (OtlpGrpcExporter.mkWithOptions OtlpGrpcExporterOptions.default c guard).1.destruct) :=
  ⟨rfl, rfl, rfl, rfl, rfl, rfl⟩

end Otlp

namespace Otlp

/-- C4: a second `Shutdown` on the same exporter observes no client handle,
returns true, and emits no client call at all (so the shared reference count
is not decremented a second time); on an exporter holding a client whose
drain completes within the timeout, the first call also returns true, and
across both calls the guard's reference is removed exactly once. -/
theorem C4_double_shutdown_idempotent (e : OtlpGrpcExporter)
    (opts : OtlpGrpcExporterOptions) (guard : Nat)
    (stubOpt : Option TraceServiceStub) (b : Bool) (ar : ExportResult)
    (fr : Bool) (sf : Option TraceServiceStub) (t1 t2 : Nat) :
    (((e.Shutdown t1).2.1.Shutdown t2).1 = true)
    ∧ (((e.Shutdown t1).2.1.Shutdown t2).2.2 = [])
    ∧ ((e.Shutdown t1).2.1.client_ = none)
    ∧ ((OtlpGrpcExporter.Shutdown
          ⟨opts, some ⟨ar, fr, true, sf⟩, guard, stubOpt, b⟩ t1).1 = true)
    ∧ refRemovedCount
        ((OtlpGrpcExporter.Shutdown
            ⟨opts, some ⟨ar, fr, true, sf⟩, guard, stubOpt, b⟩ t1).2.2
          ++ (((OtlpGrpcExporter.Shutdown
            ⟨opts, some ⟨ar, fr, true, sf⟩, guard, stubOpt, b⟩ t1).2.1).Shutdown
              t2).2.2) = 1 := by
  cases hc : e.client_ <;>
    simp [OtlpGrpcExporter.Shutdown, hc, refRemovedCount, Event.isRemoveRef]

/-- C9: an `Export` call that has already copied the client handle into its
local strong reference and passed the guards is unaffected by a `Shutdown`
that completes before the dispatch: the interleaved execution returns
exactly what the uninterrupted `Export` returns, because `Shutdown` touches
neither `options_` nor `trace_service_stub_` and the dispatch uses the
captured local client reference. -/
theorem C9_inflight_export_completes (asyncEnabled : Bool) (t : Nat)
    (e : OtlpGrpcExporter) (spans : List Nat) :
    exportConcurrentShutdown asyncEnabled t e spans
      = OtlpGrpcExporter.Export asyncEnabled e spans
    ∧ (e.Shutdown t).2.1.options_ = e.options_
    ∧ (e.Shutdown t).2.1.trace_service_stub_ = e.trace_service_stub_ := by
  cases hc : e.client_ with
  | none =>
    simp [exportConcurrentShutdown, OtlpGrpcExporter.Export,
      OtlpGrpcExporter.Shutdown, hc]
  | some c =>
    cases hs : e.trace_service_stub_ <;>
    cases hb : e.isShutdown <;>
    by_cases he : spans.isEmpty <;>
      simp [exportConcurrentShutdown, OtlpGrpcExporter.Export,
        OtlpGrpcExporter.Shutdown, hc, hs, hb, he]

end Otlp

namespace Otlp

/-- Guard registrations split over trace concatenation. -/
theorem refAddedCount_append (l1 l2 : List Event) :
    refAddedCount (l1 ++ l2) = refAddedCount l1 + refAddedCount l2 := by
  simp [refAddedCount, List.filter_append]

/-- Guard removals split over trace concatenation. -/
theorem refRemovedCount_append (l1 l2 : List Event) :
    refRemovedCount (l1 ++ l2) = refRemovedCount l1 + refRemovedCount l2 := by
  simp [refRemovedCount, List.filter_append]

/-- An `Export` call never touches the reference guard: it neither registers
nor removes a reference, on any path. -/
theorem export_ref_counts (asyncEnabled : Bool) (e : OtlpGrpcExporter)
    (spans : List Nat) :
    refAddedCount (OtlpGrpcExporter.Export asyncEnabled e spans).2 = 0
    ∧ refRemovedCount (OtlpGrpcExporter.Export asyncEnabled e spans).2 = 0 := by
  cases hc : e.client_ with
  | none =>
    simp [OtlpGrpcExporter.Export, hc, refAddedCount, refRemovedCount,
      Event.isAddRef, Event.isRemoveRef]
  | some c =>
    cases hs : e.trace_service_stub_ with
    | none =>
      cases hb : e.isShutdown <;>
        simp [OtlpGrpcExporter.Export, hc, hs, hb, refAddedCount,
          refRemovedCount, Event.isAddRef, Event.isRemoveRef]
    | some stub =>
      cases hb : e.isShutdown <;>
      by_cases he : spans.isEmpty <;>
      by_cases hd : asyncEnabled ∧ 1 < e.options_.max_concurrent_requests <;>
      cases hok : stub.status.ok <;>
        simp [OtlpGrpcExporter.Export, exportCore, syncExport, hc, hs, hb,
          he, hd, hok, refAddedCount, refRemovedCount, Event.isAddRef,
          Event.isRemoveRef]

/-- One operation on a live exporter never registers a reference, and
preserves the sum of already-performed guard removals and the removal still
owed while a client handle is held. -/
theorem applyOp_ref_invariant (asyncEnabled : Bool) (e : OtlpGrpcExporter)
    (op : Op) :
    refAddedCount (applyOp asyncEnabled e op).2 = 0
    ∧ refRemovedCount (applyOp asyncEnabled e op).2
        + (if (applyOp asyncEnabled e op).1.client_.isSome then 1 else 0)
      = (if e.client_.isSome then 1 else 0) := by
  cases op with
  | exportOp spans =>
    have h := export_ref_counts asyncEnabled e spans
    simp [applyOp, h.1, h.2]
  | forceFlushOp t =>
    cases hc : e.client_ <;>
      simp [applyOp, OtlpGrpcExporter.ForceFlush, hc, refAddedCount,
        refRemovedCount, Event.isAddRef, Event.isRemoveRef]
  | shutdownOp t =>
    cases hc : e.client_ <;>
      simp [applyOp, OtlpGrpcExporter.Shutdown, hc, refAddedCount,
        refRemovedCount, Event.isAddRef, Event.isRemoveRef]

/-- Running any operation sequence registers no reference and preserves the
sum of performed guard removals and the removal still owed while a client
handle is held. -/
theorem runOps_ref_invariant (asyncEnabled : Bool) (ops : List Op) :
    ∀ e : OtlpGrpcExporter,
      refAddedCount (runOps asyncEnabled e ops).2 = 0
      ∧ refRemovedCount (runOps asyncEnabled e ops).2
          + (if (runOps asyncEnabled e ops).1.client_.isSome then 1 else 0)
        = (if e.client_.isSome then 1 else 0) := by
  induction ops with
  | nil =>
    intro e
    simp [runOps, refAddedCount, refRemovedCount]
  | cons op rest ih =>
    intro e
    have h1 := applyOp_ref_invariant asyncEnabled e op
    have h2 := ih (applyOp asyncEnabled e op).1
    simp only [runOps, refAddedCount_append, refRemovedCount_append]
    omega

/-- The destructor registers no reference and removes exactly one reference
when a client handle is still held, none otherwise. -/
theorem destruct_ref_counts (e : OtlpGrpcExporter) :
    refAddedCount e.destruct = 0
    ∧ refRemovedCount e.destruct = (if e.client_.isSome then 1 else 0) := by
  cases hc : e.client_ <;>
    simp [OtlpGrpcExporter.destruct, hc, refAddedCount, refRemovedCount,
      Event.isAddRef, Event.isRemoveRef]

/-- C5: each constructor registers the exporter's reference guard with the
shared client exactly once, and over any whole exporter lifetime —
construction, an arbitrary sequence of export/flush/shutdown operations,
then destruction — the guard's reference is registered exactly once and
removed exactly once, whether by `Shutdown` (after which the destructor sees
no client handle and removes nothing) or, when `Shutdown` was never called,
by the destructor's non-blocking `RemoveReference`, never by both. -/
theorem C5_reference_guard_once (asyncEnabled : Bool)
    (opts : OtlpGrpcExporterOptions) (client : OtlpGrpcClient) (guard : Nat)
    (ops : List Op) (stubOpt : Option TraceServiceStub) :
    refAddedCount (lifecycleEvents asyncEnabled opts client guard ops) = 1
    ∧ refRemovedCount (lifecycleEvents asyncEnabled opts client guard ops) = 1
    ∧ (OtlpGrpcExporter.mkWithOptions opts client guard).2
      = [Event.addReference guard]
    ∧ (OtlpGrpcExporter.mkDefault client guard).2 = [Event.addReference guard]
    ∧ (OtlpGrpcExporter.mkWithStub stubOpt client guard).2
      = [Event.addReference guard]
    ∧ (OtlpGrpcExporter.mkWithOptionsAndClient opts client guard).2
      = [Event.addReference guard]
    ∧ (OtlpGrpcExporter.mkWithStubAndClient stubOpt client guard).2
      = [Event.addReference guard] := by
  have hrun := runOps_ref_invariant asyncEnabled ops
    (OtlpGrpcExporter.mkWithOptions opts client guard).1
  have hdes := destruct_ref_counts
    (runOps asyncEnabled (OtlpGrpcExporter.mkWithOptions opts client guard).1 ops).1
  have hsome : (OtlpGrpcExporter.mkWithOptions opts client guard).1.client_.isSome
      = true := rfl
  rw [hsome, if_pos rfl] at hrun
  have hlife : lifecycleEvents asyncEnabled opts client guard ops
      = [Event.addReference guard]
        ++ (runOps asyncEnabled
            (OtlpGrpcExporter.mkWithOptions opts client guard).1 ops).2
        ++ (runOps asyncEnabled
            (OtlpGrpcExporter.mkWithOptions opts client guard).1 ops).1.destruct :=
    rfl
  have hadd1 : refAddedCount [Event.addReference guard] = 1 := rfl
  have hrem0 : refRemovedCount [Event.addReference guard] = 0 := rfl
  refine ⟨?_, ?_, rfl, rfl, rfl, rfl, rfl⟩
  · rw [hlife, refAddedCount_append, refAddedCount_append, hadd1, hrun.1,
      hdes.1]
  · rw [hlife, refRemovedCount_append, refRemovedCount_append, hrem0, hdes.2]
    omega

end Otlp
